import Mathlib

/-!
Shallow embedding of the jenca-authentication repository: a storage service
(`storage/storage.py`) exposing CRUD endpoints over a user table, and an
authentication service (`authentication/authentication.py`) exposing
signup/login/logout with bcrypt password hashing and Flask-Login sessions.

The record store is modelled as a list of user rows in insertion order
(SQLAlchemy `query.all()` / `filter_by(...).first()` over a table whose rows
are returned in insertion order; `first()` is `List.find?`).  HTTP handlers
become pure functions from the request data and the current store to a
response and the next store.  External collaborators (bcrypt, Flask-Login's
`make_secure_token`) are parameters of the functions that use them.
-/

/-- A single-quote character, written via its code point. -/
def squote : Char := Char.ofNat 39

/-- The one-character string containing a single quote. -/
def quo : String := String.singleton squote

/-- The two-character string: letter u followed by a single quote, the
Python 2 unicode-repr marker that `on_validation_error` strips. -/
def uq : String := "u" ++ quo

namespace codes

/-- HTTP 200, `requests.codes.OK`. -/
def OK : Nat := 200

/-- HTTP 201, `requests.codes.CREATED`. -/
def CREATED : Nat := 201

/-- HTTP 400, `requests.codes.BAD_REQUEST`. -/
def BAD_REQUEST : Nat := 400

/-- HTTP 401, `requests.codes.UNAUTHORIZED`. -/
def UNAUTHORIZED : Nat := 401

/-- HTTP 404, `requests.codes.NOT_FOUND`. -/
def NOT_FOUND : Nat := 404

/-- HTTP 409, `requests.codes.CONFLICT`. -/
def CONFLICT : Nat := 409

/-- HTTP 415, `requests.codes.UNSUPPORTED_MEDIA_TYPE`. -/
def UNSUPPORTED_MEDIA_TYPE : Nat := 415

end codes

/-- A JSON response body: either an object (the keyword arguments of
`jsonify`, as an association list) or an array of objects (the
`json.dumps(details)` of the user list route). -/
inductive Body where
  | obj : List (String × String) → Body
  | arr : List (List (String × String)) → Body
deriving DecidableEq

/-- An HTTP response: body plus status code, the `(jsonify(...), code)`
pairs the handlers return. -/
structure Response where
  body : Body
  status : Nat
deriving DecidableEq

/-- A `User` row: `email` (primary key) and `password_hash`, the schema
shared by both services (`db.Column(db.String)` each). -/
structure User where
  email : String
  password_hash : String
deriving DecidableEq

/-- The record store: user rows in insertion order. -/
abbrev Store := List User

/-- HTTP method of a request, restricted to the methods the routes accept. -/
inductive Method where
  | GET
  | POST
  | DELETE
deriving DecidableEq

namespace Storage

/-- Embeds `load_user_from_id` of `storage.py`:
`User.query.filter_by(email=user_id).first()` — the first stored row whose
email equals `user_id`, or none. -/
def load_user_from_id (store : Store) (user_id : String) : Option User :=
  store.find? (fun u => u.email == user_id)

/-- Removes the leading characters of each successive occurrence of the
two-character pattern u-quote, embedding Python's
`message.replace("u'", "'")` on the character list (left-to-right,
non-overlapping). -/
def replaceUQAux : List Char → List Char
  | [] => []
  | [c] => [c]
  | c1 :: c2 :: cs =>
    if c1 = 'u' ∧ c2 = squote then squote :: replaceUQAux cs
    else c1 :: replaceUQAux (c2 :: cs)

/-- Embeds `error.message.replace("u'", "'")` from `on_validation_error`. -/
def replaceUQ (s : String) : String := ⟨replaceUQAux s.data⟩

/-- Decides whether the two-character pattern u-quote occurs in a character
list. -/
def hasUQ : List Char → Bool
  | [] => false
  | [_] => false
  | c1 :: c2 :: cs => (c1 = 'u' && c2 = squote) || hasUQ (c2 :: cs)

/-- The fixed title of every validation-error response. -/
def validationTitle : String := "There was an error validating the given arguments."

/-- Embeds the `ValidationError` handler `on_validation_error` of
`storage.py`: a BAD_REQUEST response whose detail is the validator's
message with every occurrence of u-quote replaced by a quote. -/
def on_validation_error (message : String) : Response :=
  { body := .obj [("title", validationTitle), ("detail", replaceUQ message)]
    status := codes.BAD_REQUEST }

/-- The title of the NOT_FOUND response for a missing user (identical text
in `storage.py` and `authentication.py`). -/
def notFoundTitle : String := "The requested user does not exist."

/-- The detail of the NOT_FOUND response for a missing user. -/
def notFoundDetail (email : String) : String :=
  "No user exists with the email \"" ++ email ++ "\""

/-- The NOT_FOUND response both services return when no user has the given
email. -/
def user_not_found (email : String) : Response :=
  { body := .obj [("title", notFoundTitle), ("detail", notFoundDetail email)]
    status := codes.NOT_FOUND }

/-- The response `flask_negotiate.consumes('application/json')` produces for
a request whose declared content type is not `application/json`; only the
415 status is specified, the body is the framework's default error page,
abstracted here as an empty object. -/
def unsupported_media_type : Response :=
  { body := .obj [], status := codes.UNSUPPORTED_MEDIA_TYPE }

/-- The title of the CONFLICT response of `create_user`. -/
def conflictTitle : String := "There is already a user with the given email address."

/-- The detail of the CONFLICT response of `create_user`. -/
def conflictDetail (email : String) : String :=
  "A user already exists with the email \"" ++ email ++ "\""

/-- Embeds `create_user` of `storage.py` after schema validation has passed,
so both fields are present: CONFLICT when a user with the email exists
(store unchanged), otherwise the row is inserted and the pair echoed with
CREATED. -/
def create_user (store : Store) (email password_hash : String) : Response × Store :=
  match load_user_from_id store email with
  | some _ =>
      ({ body := .obj [("title", conflictTitle), ("detail", conflictDetail email)]
         status := codes.CONFLICT }, store)
  | none =>
      ({ body := .obj [("email", email), ("password_hash", password_hash)]
         status := codes.CREATED },
       store ++ [{ email := email, password_hash := password_hash }])

/-- Embeds `specific_user_route` of `storage.py` (GET and DELETE on
`/users/<email>`), after the content-type check: NOT_FOUND when no row has
the email; on DELETE the row is removed; either way the (deleted) row's
snapshot is returned with OK. -/
def specific_user_route (store : Store) (method : Method) (email : String) :
    Response × Store :=
  match load_user_from_id store email with
  | none => (user_not_found email, store)
  | some user =>
      let store2 := if method = Method.DELETE
        then store.eraseP (fun u => u.email == email)
        else store
      ({ body := .obj [("email", user.email), ("password_hash", user.password_hash)]
         status := codes.OK }, store2)

/-- The JSON body of a `POST /users` request: each required field either
present with a string value or absent. -/
structure CreateBody where
  email : Option String
  password_hash : Option String
deriving DecidableEq

/-- Modelled from the spec: the JSON schema `users`/`create` (the schema
file under `schemas/` is not in the sources) requires the properties
`email` and `password_hash`; a missing property makes the validator raise
`ValidationError` whose message on Python 2 reads
u-quote\<property\>quote` is a required property`. -/
def validate_create (body : CreateBody) : Except String (String × String) :=
  match body.email with
  | none => .error (uq ++ "email" ++ quo ++ " is a required property")
  | some e =>
      match body.password_hash with
      | none => .error (uq ++ "password_hash" ++ quo ++ " is a required property")
      | some h => .ok (e, h)

/-- Embeds the `/users` route of `storage.py`: the
`@consumes('application/json')` content-type gate, then for POST the
`@jsonschema.validate('users', 'create')` gate around `create_user`, and
for GET the list of all rows in insertion order. -/
def users_route (store : Store) (contentType : String) (method : Method)
    (body : CreateBody) : Response × Store :=
  if contentType ≠ "application/json" then (unsupported_media_type, store)
  else match method with
    | Method.POST =>
        match validate_create body with
        | .error msg => (on_validation_error msg, store)
        | .ok (e, h) => create_user store e h
    | _ =>
        ({ body := .arr (store.map (fun u => [("email", u.email), ("password_hash", u.password_hash)]))
           status := codes.OK }, store)

/-- Embeds the `/users/<email>` route of `storage.py`: the
`@consumes('application/json')` content-type gate, then
`specific_user_route`. -/
def specific_user_full (store : Store) (contentType : String) (method : Method)
    (email : String) : Response × Store :=
  if contentType ≠ "application/json" then (unsupported_media_type, store)
  else specific_user_route store method email

/-- Sequences `create_user` calls over a list of (email, password hash)
pairs, threading the store. -/
def createMany (store : Store) : List (String × String) → Store
  | [] => store
  | p :: rest => createMany (create_user store p.1 p.2).2 rest

end Storage

namespace Authentication

/-- Embeds `load_user_from_id` of `authentication.py`:
`User.query.filter_by(email=user_id).first()`. -/
def load_user_from_id (store : Store) (user_id : String) : Option User :=
  store.find? (fun u => u.email == user_id)

/-- Embeds `User.get_auth_token` of `authentication.py`:
`make_secure_token(self.email, self.password_hash)`, with Flask-Login's
`make_secure_token` passed in as the parameter `mst`. -/
def get_auth_token (mst : String → String → String) (u : User) : String :=
  mst u.email u.password_hash

/-- Embeds `load_user_from_token` of `authentication.py`: iterate over
`User.query.all()` in order and return the first user whose
`get_auth_token()` equals the given token, `None` when no user matches. -/
def load_user_from_token (mst : String → String → String) (store : Store)
    (auth_token : String) : Option User :=
  store.find? (fun u => get_auth_token mst u == auth_token)

/-- The Flask-Login session state: the id (email) of the logged-in user, if
any, and whether the session cookie is a persistent remember-me one. -/
structure Session where
  user_id : Option String
  remember : Bool
deriving DecidableEq

/-- The title of the UNAUTHORIZED response of `login`. -/
def badPasswordTitle : String := "An incorrect password was provided."

/-- The detail of the UNAUTHORIZED response of `login`; it is built from the
request's email only. -/
def badPasswordDetail (email : String) : String :=
  "The password for the user \"" ++ email ++
    "\" does not match the password provided."

/-- Embeds `login` of `authentication.py`, with bcrypt's
`check_password_hash(stored_hash, password)` passed in as `check`:
NOT_FOUND when no user has the email (session untouched), UNAUTHORIZED when
the password does not verify (session untouched), otherwise
`login_user(user, remember=True)` followed by echoing `{email, password}`
with the default OK status. -/
def login (check : String → String → Bool) (store : Store) (sess : Session)
    (email password : String) : Response × Session :=
  match load_user_from_id store email with
  | none =>
      ({ body := .obj [("title", Storage.notFoundTitle),
                       ("detail", Storage.notFoundDetail email)]
         status := codes.NOT_FOUND }, sess)
  | some user =>
      if ¬ check user.password_hash password then
        ({ body := .obj [("title", badPasswordTitle),
                         ("detail", badPasswordDetail email)]
           status := codes.UNAUTHORIZED }, sess)
      else
        ({ body := .obj [("email", email), ("password", password)]
           status := codes.OK },
         { user_id := some user.email, remember := true })

/-- Embeds `signup` of `authentication.py`, with bcrypt's
`generate_password_hash` passed in as `gen`: CONFLICT with an empty body
when a user with the email exists (store unchanged), otherwise the row
`{email, gen password}` is inserted and `{email, password}` echoed with
CREATED. -/
def signup (gen : String → String) (store : Store) (email password : String) :
    Response × Store :=
  match load_user_from_id store email with
  | some _ => ({ body := .obj [], status := codes.CONFLICT }, store)
  | none =>
      ({ body := .obj [("email", email), ("password", password)]
         status := codes.CREATED },
       store ++ [{ email := email, password_hash := gen password }])

end Authentication

/-- A concrete token derivation used only to witness the contract assumed of
Flask-Login's `make_secure_token`: a length-prefixed pairing of the two
strings, which is injective. -/
def pairTok (a b : String) : String :=
  ⟨List.replicate a.length '1' ++ '0' :: (a.data ++ b.data)⟩

/-- Two lists that are a (possibly empty) run of `c` followed by a separator
`d ≠ c` agree on run length and remainder when equal. -/
theorem replicate_sep_inj {c d : Char} (hcd : c ≠ d) :
    ∀ (n m : Nat) (xs ys : List Char),
      List.replicate n c ++ d :: xs = List.replicate m c ++ d :: ys →
      n = m ∧ xs = ys := by
  intro n
  induction n with
  | zero =>
    intro m xs ys h
    cases m with
    | zero => simpa using h
    | succ k =>
      rw [List.replicate_succ c k] at h
      simp only [List.replicate_zero, List.nil_append, List.cons_append,
        List.cons.injEq] at h
      exact absurd h.1.symm hcd
  | succ k ih =>
    intro m xs ys h
    cases m with
    | zero =>
      rw [List.replicate_succ c k] at h
      simp only [List.replicate_zero, List.nil_append, List.cons_append,
        List.cons.injEq] at h
      exact absurd h.1 hcd
    | succ j =>
      rw [List.replicate_succ c k, List.replicate_succ c j] at h
      simp only [List.cons_append, List.cons.injEq, true_and] at h
      obtain ⟨hn, hxs⟩ := ih j xs ys h
      exact ⟨by omega, hxs⟩

/-- The concrete pairing `pairTok` is injective in both arguments. -/
theorem pairTok_inj (a b a' b' : String) (h : pairTok a b = pairTok a' b') :
    a = a' ∧ b = b' := by
  have hd := congrArg String.data h
  simp only [pairTok] at hd
  obtain ⟨hn, hxs⟩ := replicate_sep_inj (by decide) _ _ _ _ hd
  have hlen : a.data.length = a'.data.length := hn
  obtain ⟨hda, hdb⟩ := List.append_inj hxs hlen
  exact ⟨congrArg String.mk hda, congrArg String.mk hdb⟩

/-- Searching an appended list when the first part has no match searches
the second part. -/
theorem find?_append_of_none {α : Type} (p : α → Bool) (l₁ l₂ : List α)
    (h : l₁.find? p = none) : (l₁ ++ l₂).find? p = l₂.find? p := by
  rw [List.find?_append, h, Option.none_or]

/-- After erasing the (unique, by the primary-key invariant) row with a
given email, no remaining row has that email. -/
theorem eraseP_email_not_mem {e : String} :
    ∀ (store : Store), (store.map User.email).Nodup →
      ∀ v ∈ store.eraseP (fun u => u.email == e), v.email ≠ e := by
  intro store
  induction store with
  | nil => intro _ v hv; simp at hv
  | cons a t ih =>
    intro hnodup v hv
    rw [List.map_cons, List.nodup_cons] at hnodup
    by_cases ha : a.email = e
    · have hb : (a.email == e) = true := beq_iff_eq.mpr ha
      simp only [List.eraseP_cons, hb, cond_true] at hv
      intro hve
      exact hnodup.1 (ha ▸ hve ▸ List.mem_map_of_mem User.email hv)
    · have hb : (a.email == e) = false := by simpa using ha
      simp only [List.eraseP_cons, hb, cond_false] at hv
      rcases List.mem_cons.mp hv with hva | hvt
      · exact hva ▸ ha
      · exact ih hnodup.2 v hvt

/-- Erasing the row with one email keeps every row with a different email. -/
theorem mem_eraseP_of_ne {e : String} :
    ∀ (store : Store), ∀ v ∈ store, v.email ≠ e →
      v ∈ store.eraseP (fun u => u.email == e) := by
  intro store
  induction store with
  | nil => intro v hv; simp at hv
  | cons a t ih =>
    intro v hv hve
    by_cases ha : a.email = e
    · have hb : (a.email == e) = true := beq_iff_eq.mpr ha
      simp only [List.eraseP_cons, hb, cond_true]
      rcases List.mem_cons.mp hv with hva | hvt
      · exact absurd (hva ▸ ha) hve
      · exact hvt
    · have hb : (a.email == e) = false := by simpa using ha
      simp only [List.eraseP_cons, hb, cond_false]
      rcases List.mem_cons.mp hv with hva | hvt
      · exact hva ▸ List.mem_cons_self a _
      · exact List.mem_cons_of_mem a (ih v hvt hve)

/-- After the erase, lookup by that email finds nothing (given the
primary-key invariant). -/
theorem find?_eraseP_none {e : String} (store : Store)
    (hnodup : (store.map User.email).Nodup) :
    (store.eraseP (fun u => u.email == e)).find? (fun u => u.email == e) = none := by
  rw [List.find?_eq_none]
  intro v hv
  simpa using eraseP_email_not_mem store hnodup v hv

/-- Replacing u-quote by quote never lengthens the character list. -/
theorem replaceUQAux_length_le : ∀ l : List Char,
    (Storage.replaceUQAux l).length ≤ l.length
  | [] => by simp [Storage.replaceUQAux]
  | [c] => by simp [Storage.replaceUQAux]
  | c1 :: c2 :: cs => by
    have h1 := replaceUQAux_length_le cs
    have h2 := replaceUQAux_length_le (c2 :: cs)
    by_cases h : c1 = 'u' ∧ c2 = squote
    · simp only [Storage.replaceUQAux, if_pos h, List.length_cons]
      omega
    · simp only [Storage.replaceUQAux, if_neg h, List.length_cons] at h2 ⊢
      omega

/-- Replacing u-quote by quote strictly shortens a character list that
contains an occurrence. -/
theorem replaceUQAux_length_lt : ∀ l : List Char, Storage.hasUQ l = true →
    (Storage.replaceUQAux l).length < l.length
  | [] => by intro hl; simp [Storage.hasUQ] at hl
  | [c] => by intro hl; simp [Storage.hasUQ] at hl
  | c1 :: c2 :: cs => by
    intro hl
    by_cases h : c1 = 'u' ∧ c2 = squote
    · have h1 := replaceUQAux_length_le cs
      simp only [Storage.replaceUQAux, if_pos h, List.length_cons]
      omega
    · have htail : Storage.hasUQ (c2 :: cs) = true := by
        simp only [Storage.hasUQ, Bool.or_eq_true, Bool.and_eq_true,
          decide_eq_true_eq] at hl
        rcases hl with ⟨hc1, hc2⟩ | ht
        · exact absurd ⟨hc1, hc2⟩ h
        · exact ht
      have h2 := replaceUQAux_length_lt (c2 :: cs) htail
      simp only [Storage.replaceUQAux, if_neg h, List.length_cons] at h2 ⊢
      omega

/-- A string containing the u-quote pattern is changed by the replacement. -/
theorem replaceUQ_ne {s : String} (h : Storage.hasUQ s.data = true) :
    Storage.replaceUQ s ≠ s := by
  intro heq
  have hd : Storage.replaceUQAux s.data = s.data := congrArg String.data heq
  have hlt := replaceUQAux_length_lt s.data h
  rw [hd] at hlt
  omega

/-- Creating rows with fresh, pairwise-distinct emails appends exactly
those rows in order. -/
theorem createMany_appends : ∀ (pairs : List (String × String)) (store : Store),
    (∀ p ∈ pairs, store.find? (fun u => u.email == p.1) = none) →
    (pairs.map Prod.fst).Nodup →
    Storage.createMany store pairs = store ++ pairs.map (fun p => User.mk p.1 p.2)
  | [] => by intro store _ _; simp [Storage.createMany]
  | q :: rest => by
    intro store hfresh hnodup
    have hq := hfresh q (List.mem_cons_self q rest)
    rw [List.map_cons, List.nodup_cons] at hnodup
    have step : (Storage.create_user store q.1 q.2).2 = store ++ [User.mk q.1 q.2] := by
      simp [Storage.create_user, Storage.load_user_from_id, hq]
    have hfresh2 : ∀ p ∈ rest,
        (store ++ [User.mk q.1 q.2]).find? (fun u => u.email == p.1) = none := by
      intro p hp
      rw [find?_append_of_none _ _ _ (hfresh p (List.mem_cons_of_mem q hp))]
      have hne : ¬ ((User.mk q.1 q.2).email == p.1) = true := by
        simp only [beq_iff_eq]
        intro hqp
        exact hnodup.1 (hqp ▸ List.mem_map_of_mem Prod.fst hp)
      rw [List.find?_eq_none]
      intro x hx
      rw [List.mem_singleton] at hx
      subst hx
      exact hne
    simp only [Storage.createMany]
    rw [step, createMany_appends rest (store ++ [User.mk q.1 q.2]) hfresh2 hnodup.2]
    simp

/-- The rendering of a row as a two-field JSON object is injective. -/
theorem recordRow_inj :
    Function.Injective
      (fun p : String × String => [("email", p.1), ("password_hash", p.2)]) := by
  intro p q h
  simp only [List.cons.injEq, Prod.mk.injEq, true_and, and_true] at h
  cases p; cases q
  simp_all

/-- A concrete stand-in for bcrypt's `generate_password_hash`, used only in
witnesses. -/
def hashGen : String → String := fun p => "bc:" ++ p

/-- A concrete stand-in for bcrypt's `check_password_hash(stored, password)`,
consistent with `hashGen`, used only in witnesses. -/
def hashCheck : String → String → Bool := fun stored p => stored == "bc:" ++ p

/-- C1: `Signup(email, password)` fails with CONFLICT when a user with the
email is already registered (store unchanged); otherwise it persists
`{email, gen password}` — the bcrypt salted one-way hash of the password —
and returns the body `{email, password}` (the plaintext, never the hash)
with CREATED. -/
theorem claim_C1_signup (gen : String → String) (store : Store)
    (email password : String) :
    (Authentication.load_user_from_id store email ≠ none →
      Authentication.signup gen store email password =
        ({ body := .obj [], status := codes.CONFLICT }, store))
    ∧ (Authentication.load_user_from_id store email = none →
      Authentication.signup gen store email password =
        ({ body := .obj [("email", email), ("password", password)],
           status := codes.CREATED },
         store ++ [{ email := email, password_hash := gen password }])) := by
  constructor
  · intro hne
    match heq : Authentication.load_user_from_id store email with
    | none => exact absurd heq hne
    | some u => simp [Authentication.signup, heq]
  · intro hnone
    simp [Authentication.signup, hnone]

/-- Witness for C1 at concrete inputs: a fresh signup creates the row and a
repeated one conflicts. -/
theorem claim_C1_signup_witness :
    Authentication.signup hashGen [] "a@x" "pw" =
      ({ body := .obj [("email", "a@x"), ("password", "pw")],
         status := codes.CREATED },
       [{ email := "a@x", password_hash := hashGen "pw" }])
    ∧ Authentication.signup hashGen [⟨"a@x", "H"⟩] "a@x" "pw" =
      ({ body := .obj [], status := codes.CONFLICT }, [⟨"a@x", "H"⟩]) :=
  ⟨(claim_C1_signup hashGen [] "a@x" "pw").2 (by decide),
   (claim_C1_signup hashGen [⟨"a@x", "H"⟩] "a@x" "pw").1 (by decide)⟩

/-- C2: `Login(email, password)` has exactly three outcomes: NOT_FOUND when
no user has the email, UNAUTHORIZED when the password does not verify
against the stored hash (with a response built from the email alone, so
nothing about the hash is revealed, and the session untouched), and
otherwise a persistent remember-me session is established and
`{email, password}` returned with OK. -/
theorem claim_C2_login (check : String → String → Bool) (store : Store)
    (sess : Authentication.Session) (email password : String) :
    (Authentication.load_user_from_id store email = none →
      Authentication.login check store sess email password =
        ({ body := .obj [("title", Storage.notFoundTitle),
                         ("detail", Storage.notFoundDetail email)],
           status := codes.NOT_FOUND }, sess))
    ∧ (∀ u, Authentication.load_user_from_id store email = some u →
        check u.password_hash password = false →
        Authentication.login check store sess email password =
          ({ body := .obj [("title", Authentication.badPasswordTitle),
                           ("detail", Authentication.badPasswordDetail email)],
             status := codes.UNAUTHORIZED }, sess))
    ∧ (∀ u, Authentication.load_user_from_id store email = some u →
        check u.password_hash password = true →
        Authentication.login check store sess email password =
          ({ body := .obj [("email", email), ("password", password)],
             status := codes.OK },
           { user_id := some u.email, remember := true }))
    ∧ ((Authentication.login check store sess email password).1.status = codes.NOT_FOUND
        ∨ (Authentication.login check store sess email password).1.status = codes.UNAUTHORIZED
        ∨ (Authentication.login check store sess email password).1.status = codes.OK) := by
  refine ⟨?_, ?_, ?_, ?_⟩
  · intro hnone
    simp [Authentication.login, hnone]
  · intro u hu hchk
    simp [Authentication.login, hu, hchk]
  · intro u hu hchk
    simp [Authentication.login, hu, hchk]
  · match heq : Authentication.load_user_from_id store email with
    | none => simp [Authentication.login, heq]
    | some u =>
      match hc : check u.password_hash password with
      | false => simp [Authentication.login, heq, hc]
      | true => simp [Authentication.login, heq, hc]

/-- Witness for C2 at concrete inputs: a wrong password is UNAUTHORIZED
with the session untouched, the right one logs in with a remember-me
session. -/
theorem claim_C2_login_witness :
    Authentication.login hashCheck [⟨"a@x", "bc:pw"⟩] ⟨none, false⟩ "a@x" "bad" =
      ({ body := .obj [("title", Authentication.badPasswordTitle),
                       ("detail", Authentication.badPasswordDetail "a@x")],
         status := codes.UNAUTHORIZED }, ⟨none, false⟩)
    ∧ Authentication.login hashCheck [⟨"a@x", "bc:pw"⟩] ⟨none, false⟩ "a@x" "pw" =
      ({ body := .obj [("email", "a@x"), ("password", "pw")],
         status := codes.OK }, ⟨some "a@x", true⟩) :=
  ⟨(claim_C2_login hashCheck [⟨"a@x", "bc:pw"⟩] ⟨none, false⟩ "a@x" "bad").2.1
      ⟨"a@x", "bc:pw"⟩ (by decide) (by decide),
   (claim_C2_login hashCheck [⟨"a@x", "bc:pw"⟩] ⟨none, false⟩ "a@x" "pw").2.2.1
      ⟨"a@x", "bc:pw"⟩ (by decide) (by decide)⟩

/-- C3: creating a fresh `(email, password_hash)` succeeds with CREATED and
echoes the pair, and a subsequent `GET /users/{email}` returns exactly that
pair with OK, leaving the store as after the create. -/
theorem claim_C3_create_then_get (store : Store) (email ph : String)
    (hfresh : Storage.load_user_from_id store email = none) :
    (Storage.create_user store email ph).1 =
      { body := .obj [("email", email), ("password_hash", ph)],
        status := codes.CREATED }
    ∧ Storage.specific_user_route (Storage.create_user store email ph).2
        Method.GET email =
      ({ body := .obj [("email", email), ("password_hash", ph)],
         status := codes.OK },
       (Storage.create_user store email ph).2) := by
  have hstep : (Storage.create_user store email ph).2 = store ++ [User.mk email ph] := by
    simp [Storage.create_user, hfresh]
  have hfind : Storage.load_user_from_id (store ++ [User.mk email ph]) email =
      some (User.mk email ph) := by
    unfold Storage.load_user_from_id at hfresh ⊢
    rw [find?_append_of_none _ _ _ hfresh]
    simp
  constructor
  · simp [Storage.create_user, hfresh]
  · rw [hstep]
    simp [Storage.specific_user_route, hfind]

/-- Witness for C3 at concrete inputs. -/
theorem claim_C3_create_then_get_witness :
    Storage.specific_user_route (Storage.create_user [] "a@x" "123abc").2
        Method.GET "a@x" =
      ({ body := .obj [("email", "a@x"), ("password_hash", "123abc")],
         status := codes.OK },
       (Storage.create_user [] "a@x" "123abc").2) :=
  (claim_C3_create_then_get [] "a@x" "123abc" (by decide)).2

/-- C4: creating with an already-used email yields CONFLICT for every
password hash, leaves the store unchanged, and the stored row for that
email keeps its previous value. -/
theorem claim_C4_create_conflict (store : Store) (email : String) (u : User)
    (hfound : Storage.load_user_from_id store email = some u) (ph : String) :
    Storage.create_user store email ph =
      ({ body := .obj [("title", Storage.conflictTitle),
                       ("detail", Storage.conflictDetail email)],
         status := codes.CONFLICT }, store)
    ∧ Storage.load_user_from_id store email = some u := by
  refine ⟨?_, hfound⟩
  simp [Storage.create_user, hfound]

/-- Witness for C4 at concrete inputs. -/
theorem claim_C4_create_conflict_witness :
    Storage.create_user [⟨"a@x", "H1"⟩] "a@x" "H2" =
      ({ body := .obj [("title", Storage.conflictTitle),
                       ("detail", Storage.conflictDetail "a@x")],
         status := codes.CONFLICT }, [⟨"a@x", "H1"⟩])
    ∧ Storage.load_user_from_id [⟨"a@x", "H1"⟩] "a@x" = some ⟨"a@x", "H1"⟩ :=
  claim_C4_create_conflict [⟨"a@x", "H1"⟩] "a@x" ⟨"a@x", "H1"⟩ (by decide) "H2"

/-- C5: deleting a present record (under the primary-key invariant that
emails are pairwise distinct) returns its snapshot with OK and removes
exactly that record — a subsequent GET is NOT_FOUND, the record's email is
absent from the remaining rows (hence from ListAll), and every other row
is kept; deleting an absent record is NOT_FOUND with the store unchanged. -/
theorem claim_C5_delete (store : Store) (email : String)
    (hnodup : (store.map User.email).Nodup) :
    (∀ u, Storage.load_user_from_id store email = some u →
      Storage.specific_user_route store Method.DELETE email =
        ({ body := .obj [("email", u.email), ("password_hash", u.password_hash)],
           status := codes.OK },
         store.eraseP (fun v => v.email == email))
      ∧ Storage.specific_user_route (store.eraseP (fun v => v.email == email))
          Method.GET email =
        (Storage.user_not_found email, store.eraseP (fun v => v.email == email))
      ∧ u ∉ store.eraseP (fun v => v.email == email)
      ∧ (∀ v ∈ store.eraseP (fun v => v.email == email), v.email ≠ email)
      ∧ (∀ v ∈ store, v.email ≠ email → v ∈ store.eraseP (fun v => v.email == email)))
    ∧ (Storage.load_user_from_id store email = none →
        Storage.specific_user_route store Method.DELETE email =
          (Storage.user_not_found email, store)) := by
  constructor
  · intro u hu
    have huemail : u.email = email := by
      have := List.find?_some hu
      simpa using this
    have herase := eraseP_email_not_mem (e := email) store hnodup
    have hfind2 := find?_eraseP_none (e := email) store hnodup
    refine ⟨?_, ?_, ?_, herase, fun v hv hne => mem_eraseP_of_ne store v hv hne⟩
    · simp [Storage.specific_user_route, hu]
    · simp [Storage.specific_user_route, Storage.load_user_from_id, hfind2]
    · intro hmem
      exact herase u hmem huemail
  · intro hnone
    simp [Storage.specific_user_route, hnone]

/-- Witness for C5 at concrete inputs: delete a present record, then GET is
NOT_FOUND; delete on an absent email leaves the store unchanged. -/
theorem claim_C5_delete_witness :
    Storage.specific_user_route [⟨"a@x", "H"⟩, ⟨"b@x", "G"⟩] Method.DELETE "a@x" =
      ({ body := .obj [("email", "a@x"), ("password_hash", "H")],
         status := codes.OK }, [⟨"b@x", "G"⟩])
    ∧ Storage.specific_user_route [] Method.DELETE "a@x" =
        (Storage.user_not_found "a@x", []) := by
  constructor
  · have h := (claim_C5_delete [⟨"a@x", "H"⟩, ⟨"b@x", "G"⟩] "a@x" (by decide)).1
      ⟨"a@x", "H"⟩ (by decide)
    have he : ([⟨"a@x", "H"⟩, ⟨"b@x", "G"⟩] : Store).eraseP
        (fun v => v.email == "a@x") = [⟨"b@x", "G"⟩] := by decide
    rw [he] at h
    exact h.1
  · exact (claim_C5_delete [] "a@x" (by decide)).2 (by decide)

/-- C6: `GET /users` on the empty store returns the empty array with OK;
after creating N users with pairwise distinct emails, it returns exactly
those N records in order, and that record list has no duplicates. -/
theorem claim_C6_list_all (rbody : Storage.CreateBody)
    (pairs : List (String × String))
    (hnodup : (pairs.map Prod.fst).Nodup) :
    Storage.users_route [] "application/json" Method.GET rbody =
      ({ body := .arr [], status := codes.OK }, [])
    ∧ Storage.users_route (Storage.createMany [] pairs) "application/json"
        Method.GET rbody =
      ({ body := .arr (pairs.map (fun p => [("email", p.1), ("password_hash", p.2)])),
         status := codes.OK }, Storage.createMany [] pairs)
    ∧ (pairs.map (fun p => [("email", p.1), ("password_hash", p.2)])).Nodup := by
  have hcm := createMany_appends pairs [] (by intro p _; simp) hnodup
  refine ⟨?_, ?_, ?_⟩
  · simp [Storage.users_route]
  · rw [hcm]
    simp [Storage.users_route, List.map_map, Function.comp]
  · exact List.Nodup.map recordRow_inj (List.Nodup.of_map Prod.fst hnodup)

/-- Witness for C6 at concrete inputs. -/
theorem claim_C6_list_all_witness :
    Storage.users_route (Storage.createMany [] [("a@x", "1"), ("b@x", "2")])
        "application/json" Method.GET ⟨none, none⟩ =
      ({ body := .arr [[("email", "a@x"), ("password_hash", "1")],
                       [("email", "b@x"), ("password_hash", "2")]],
         status := codes.OK },
       Storage.createMany [] [("a@x", "1"), ("b@x", "2")]) :=
  (claim_C6_list_all ⟨none, none⟩ [("a@x", "1"), ("b@x", "2")] (by decide)).2.1

/-- C7: every storage request whose declared content type is not
`application/json` is rejected with UNSUPPORTED_MEDIA_TYPE on both routes,
for every method, body and email; the store is returned unchanged and the
response is one constant, so the store is neither read nor modified. -/
theorem claim_C7_content_type (ct : String) (hct : ct ≠ "application/json")
    (store : Store) (m : Method) (rbody : Storage.CreateBody) (email : String) :
    Storage.users_route store ct m rbody = (Storage.unsupported_media_type, store)
    ∧ Storage.specific_user_full store ct m email =
        (Storage.unsupported_media_type, store) := by
  constructor
  · simp [Storage.users_route, hct]
  · simp [Storage.specific_user_full, hct]

/-- Witness for C7 at concrete inputs. -/
theorem claim_C7_content_type_witness :
    Storage.users_route [⟨"a@x", "H"⟩] "text/html" Method.POST
        ⟨some "b@x", some "G"⟩ =
      (Storage.unsupported_media_type, [⟨"a@x", "H"⟩])
    ∧ Storage.specific_user_full [⟨"a@x", "H"⟩] "text/html" Method.DELETE "a@x" =
        (Storage.unsupported_media_type, [⟨"a@x", "H"⟩]) :=
  ⟨(claim_C7_content_type "text/html" (by decide) [⟨"a@x", "H"⟩] Method.POST
      ⟨some "b@x", some "G"⟩ "a@x").1,
   (claim_C7_content_type "text/html" (by decide) [⟨"a@x", "H"⟩] Method.DELETE
      ⟨some "b@x", some "G"⟩ "a@x").2⟩

/-- C8: a `POST /users` whose JSON body lacks a required field is answered
with BAD_REQUEST and a `{title, detail}` body whose detail names the
missing property, and the store is returned unchanged for every store — the
rejection happens before any database access. -/
theorem claim_C8_validation (store : Store) (rbody : Storage.CreateBody)
    (hmiss : rbody.email = none ∨ rbody.password_hash = none) :
    ∃ p, ((p = "email" ∧ rbody.email = none)
          ∨ (p = "password_hash" ∧ rbody.password_hash = none))
      ∧ Storage.users_route store "application/json" Method.POST rbody =
          ({ body := .obj [("title", Storage.validationTitle),
                           ("detail", quo ++ p ++ quo ++ " is a required property")],
             status := codes.BAD_REQUEST }, store) := by
  cases hbe : rbody.email with
  | none =>
    refine ⟨"email", Or.inl ⟨rfl, rfl⟩, ?_⟩
    have hval : Storage.validate_create rbody =
        .error (uq ++ "email" ++ quo ++ " is a required property") := by
      simp [Storage.validate_create, hbe]
    have hrep : Storage.replaceUQ (uq ++ "email" ++ quo ++ " is a required property") =
        quo ++ "email" ++ quo ++ " is a required property" := by decide
    simp [Storage.users_route, hval, Storage.on_validation_error, hrep]
  | some e =>
    cases hbh : rbody.password_hash with
    | none =>
      refine ⟨"password_hash", Or.inr ⟨rfl, rfl⟩, ?_⟩
      have hval : Storage.validate_create rbody =
          .error (uq ++ "password_hash" ++ quo ++ " is a required property") := by
        simp [Storage.validate_create, hbe, hbh]
      have hrep : Storage.replaceUQ
          (uq ++ "password_hash" ++ quo ++ " is a required property") =
          quo ++ "password_hash" ++ quo ++ " is a required property" := by decide
      simp [Storage.users_route, hval, Storage.on_validation_error, hrep]
    | some h =>
      rcases hmiss with h1 | h2
      · rw [hbe] at h1; exact absurd h1 (by simp)
      · rw [hbh] at h2; exact absurd h2 (by simp)

/-- Witness for C8 at a concrete input: the body missing `password_hash`. -/
theorem claim_C8_validation_witness :
    ∃ p, ((p = "email" ∧ (Storage.CreateBody.mk (some "a@x") none).email = none)
          ∨ (p = "password_hash"
             ∧ (Storage.CreateBody.mk (some "a@x") none).password_hash = none))
      ∧ Storage.users_route [] "application/json" Method.POST
          ⟨some "a@x", none⟩ =
          ({ body := .obj [("title", Storage.validationTitle),
                           ("detail", quo ++ p ++ quo ++ " is a required property")],
             status := codes.BAD_REQUEST }, []) :=
  claim_C8_validation [] ⟨some "a@x", none⟩ (Or.inr rfl)

/-- C9: the authentication token is `make_secure_token(email, password_hash)`,
so it is a deterministic function of that pair; under the library contract
that the derivation is injective, changing the stored hash changes the
token, and once no stored row carries the old pair, token lookup with the
old token identifies no user. -/
theorem claim_C9_token (mst : String → String → String) (store : Store)
    (e oldh newh : String)
    (hinj : ∀ a b a' b', mst a b = mst a' b' → a = a' ∧ b = b')
    (hne : oldh ≠ newh)
    (hgone : ∀ u ∈ store, ¬ (u.email = e ∧ u.password_hash = oldh)) :
    (∀ u₁ u₂ : User, u₁.email = u₂.email → u₁.password_hash = u₂.password_hash →
      Authentication.get_auth_token mst u₁ = Authentication.get_auth_token mst u₂)
    ∧ Authentication.get_auth_token mst ⟨e, oldh⟩ ≠
        Authentication.get_auth_token mst ⟨e, newh⟩
    ∧ Authentication.load_user_from_token mst store (mst e oldh) = none := by
  refine ⟨?_, ?_, ?_⟩
  · intro u₁ u₂ h1 h2
    simp [Authentication.get_auth_token, h1, h2]
  · intro h
    exact hne (hinj _ _ _ _ h).2
  · simp only [Authentication.load_user_from_token]
    rw [List.find?_eq_none]
    intro u hu
    simp only [Authentication.get_auth_token, beq_iff_eq]
    intro hteq
    exact hgone u hu (hinj _ _ _ _ hteq)

/-- Witness for C9 at concrete inputs, with the injective `pairTok` standing
in for `make_secure_token`: after the hash changed from h1 to h2, the token
issued under h1 finds no user. -/
theorem claim_C9_token_witness :
    Authentication.load_user_from_token pairTok [⟨"alice", "h2"⟩]
      (pairTok "alice" "h1") = none :=
  (claim_C9_token pairTok [⟨"alice", "h2"⟩] "alice" "h1" "h2"
    (fun a b a' b' h => pairTok_inj a b a' b' h)
    (by decide) (by decide)).2.2

/-- C10: the detail of every validation BAD_REQUEST is not the validator's
raw message but that message with each occurrence of the two-character
u-quote substring replaced by a quote, so whenever the raw message contains
that substring the returned detail differs from it. -/
theorem claim_C10_replace (msg : String) :
    (Storage.on_validation_error msg).body =
      .obj [("title", Storage.validationTitle),
            ("detail", Storage.replaceUQ msg)]
    ∧ (Storage.on_validation_error msg).status = codes.BAD_REQUEST
    ∧ (Storage.hasUQ msg.data = true → Storage.replaceUQ msg ≠ msg) :=
  ⟨rfl, rfl, fun h => replaceUQ_ne h⟩

/-- Witness for C10 at a concrete raw message containing the u-quote
substring. -/
theorem claim_C10_replace_witness :
    Storage.replaceUQ (uq ++ "email" ++ quo ++ " is a required property") ≠
      uq ++ "email" ++ quo ++ " is a required property" :=
  (claim_C10_replace (uq ++ "email" ++ quo ++ " is a required property")).2.2
    (by decide)
